import Mathlib

/-!
Shallow embedding of `generate_countdown.py` (countdown-timer frame
generator) and proofs about its claimed properties.

Conventions used throughout:
* Python `int` values are modelled as `ℤ` (or `ℕ` where the source only
  ever sees non-negative values, e.g. loop counters and `fps`).
* Python `float` arithmetic on ratios is modelled exactly over `ℚ`.
* Python `str | tuple` color values are modelled by the `PyColor` sum type.
* Fallible operations (`int(s, 16)` raising `ValueError`) return `Option`.
-/

/-- Decimal digits of `n`, most significant first, via fuel-based structural
recursion (`fuel = n` always suffices since `n / 10 < n` for `n > 0`).
Models Python `str(n)` for non-negative `n` (without the leading-zero case,
handled in `natStr`). -/
def natStrAux : ℕ → ℕ → List Char
  | 0, _ => []
  | fuel + 1, n =>
      if n = 0 then [] else natStrAux fuel (n / 10) ++ [Nat.digitChar (n % 10)]

/-- Python `str(n)` for a non-negative integer `n`. -/
def natStr (n : ℕ) : String :=
  if n = 0 then "0" else ⟨natStrAux n n⟩

/-- Python `f"{n:0wd}"` for non-negative `n`: left-pad the decimal string
with `'0'` up to a minimum width `w` (a minimum, never a truncation). -/
def zfill (w : ℕ) (s : String) : String :=
  ⟨List.replicate (w - s.data.length) '0' ++ s.data⟩

/-- `format_time` from the source (lines 646-651): convert total seconds to
`(HH, MM, SS)` display strings, each rendered with `f"{x:02d}"`.
The claims restrict attention to non-negative input, so the domain is `ℕ`. -/
def format_time (total_seconds : ℕ) : String × String × String :=
  (zfill 2 (natStr (total_seconds / 3600)),
   zfill 2 (natStr (total_seconds % 3600 / 60)),
   zfill 2 (natStr (total_seconds % 60)))

theorem zfill_length (w : ℕ) (s : String) :
    (zfill w s).length = max w s.length := by
  show (List.replicate (w - s.data.length) '0' ++ s.data).length = _
  rw [List.length_append, List.length_replicate]
  show _ = max w s.data.length
  omega

theorem zfill_suffix (w : ℕ) (s : String) : s.data <:+ (zfill w s).data :=
  List.suffix_append _ _

theorem natStr_length_le_two : ∀ m < 100, (natStr m).length ≤ 2 := by decide

/-- Claim C3: `format_time` returns `(HH, MM, SS)` where `HH` is
`⌊n/3600⌋` zero-padded to a minimum of two digits and never truncated
(the unpadded decimal string is a suffix of `HH` and padding only ever
extends the length), `MM` is `⌊(n mod 3600)/60⌋` and `SS` is `n mod 60`,
both exactly two digits; and the three concrete examples hold. -/
theorem format_time_contract (n : ℕ) :
    format_time n =
      (zfill 2 (natStr (n / 3600)), zfill 2 (natStr (n % 3600 / 60)),
        zfill 2 (natStr (n % 60))) ∧
    (format_time n).1.length = max 2 (natStr (n / 3600)).length ∧
    (natStr (n / 3600)).data <:+ (format_time n).1.data ∧
    (format_time n).2.1.length = 2 ∧
    (format_time n).2.2.length = 2 ∧
    format_time 0 = ("00", "00", "00") ∧
    format_time 86400 = ("24", "00", "00") ∧
    format_time 45296 = ("12", "34", "56") := by
  refine ⟨rfl, zfill_length 2 _, zfill_suffix 2 _, ?_, ?_, by decide, by decide, by decide⟩
  · have h : n % 3600 / 60 < 100 := by omega
    have := natStr_length_le_two _ h
    show (zfill 2 _).length = 2
    rw [zfill_length]; omega
  · have h : n % 60 < 100 := by omega
    have := natStr_length_le_two _ h
    show (zfill 2 _).length = 2
    rw [zfill_length]; omega

/-!  Progress / remaining ratios (render_frame line 662, render_circle_frame
line 771).  Python float arithmetic is modelled exactly over `ℚ`. -/

/-- `progress = 1.0 - (total_seconds / total_duration) if total_duration > 0
else 1.0` from `render_frame` (source line 662). -/
def progress (total_seconds total_duration : ℤ) : ℚ :=
  if 0 < total_duration then 1 - (total_seconds : ℚ) / (total_duration : ℚ) else 1

/-- `remaining_ratio = total_seconds / total_duration if total_duration > 0
else 0.0` from `render_circle_frame` (source line 771). -/
def remainingRatio (total_seconds total_duration : ℤ) : ℚ :=
  if 0 < total_duration then (total_seconds : ℚ) / (total_duration : ℚ) else 0

/-- Claim C4: for a positive total duration the digital-family progress
ratio is `1 - remaining/total`, is `0` at `remaining = total`, is `1` at
`remaining = 0`, and strictly increases as the remaining seconds decrease. -/
theorem progress_ratio_digital (T : ℤ) (hT : 0 < T) :
    (∀ s : ℤ, progress s T = 1 - (s : ℚ) / (T : ℚ)) ∧
    progress T T = 0 ∧
    progress 0 T = 1 ∧
    (∀ s₁ s₂ : ℤ, s₁ < s₂ → progress s₂ T < progress s₁ T) := by
  have hT' : (0 : ℚ) < (T : ℚ) := by exact_mod_cast hT
  have hdef : ∀ s : ℤ, progress s T = 1 - (s : ℚ) / (T : ℚ) := fun s => if_pos hT
  refine ⟨hdef, ?_, ?_, ?_⟩
  · rw [hdef, div_self (ne_of_gt hT')]; ring
  · rw [hdef]; simp
  · intro s₁ s₂ h
    rw [hdef, hdef]
    have hc : (s₁ : ℚ) < (s₂ : ℚ) := by exact_mod_cast h
    have hdiv : (s₁ : ℚ) / (T : ℚ) < (s₂ : ℚ) / (T : ℚ) := by
      apply div_lt_div_of_pos_right hc hT'
    linarith

theorem progress_ratio_digital_witness :
    progress 2 3 < progress 1 3 :=
  (progress_ratio_digital 3 (by decide)).2.2.2 1 2 (by decide)

/-- Claim C6: with `total_duration = 0` neither renderer divides; the
digital progress ratio is forced to `1` and the circular remaining ratio
to `0`, for every remaining-seconds value. -/
theorem zero_duration_ratios (s : ℤ) :
    progress s 0 = 1 ∧ remainingRatio s 0 = 0 := by
  constructor <;> simp [progress, remainingRatio]

/-!  Color values.  In the source a color is `str | tuple`; `hex_to_rgb`
(lines 595-600) passes tuples through unchanged and parses strings as
`#`-stripped hex, taking the character slices `[0:2]`, `[2:4]`, `[4:6]`. -/

/-- Python color value: a string (hex notation) or a tuple of ints. -/
inductive PyColor where
  | str (s : String)
  | tup (xs : List ℤ)
deriving DecidableEq

/-- Hex value of one character, as accepted by Python `int(_, 16)` digits. -/
def hexVal (c : Char) : Option ℕ :=
  if '0' ≤ c ∧ c ≤ '9' then some (c.toNat - '0'.toNat)
  else if 'a' ≤ c ∧ c ≤ 'f' then some (c.toNat - 'a'.toNat + 10)
  else if 'A' ≤ c ∧ c ≤ 'F' then some (c.toNat - 'A'.toNat + 10)
  else none

def pyIntHexAux : List Char → ℕ → Option ℕ
  | [], acc => some acc
  | c :: cs, acc =>
      match hexVal c with
      | some v => pyIntHexAux cs (acc * 16 + v)
      | none => none

/-- Python `int(s, 16)`: fails (raises `ValueError`) on the empty string or
on a non-hex character.  (Python additionally tolerates surrounding
whitespace, a sign and underscores; no call site in this program passes
such strings, so those forms are not modelled.) -/
def pyIntHex (cs : List Char) : Option ℕ :=
  if cs.isEmpty then none else pyIntHexAux cs 0

/-- `hex_to_rgb` from the source (lines 595-600): tuples pass through
unchanged; strings have every leading `'#'` stripped (`lstrip`) and the
three two-character slices at offsets 0, 2, 4 parsed as hex bytes.
`none` models the `ValueError` Python raises (e.g. on an empty slice). -/
def hex_to_rgb : PyColor → Option PyColor
  | .tup xs => some (.tup xs)
  | .str s =>
      let cs := s.data.dropWhile (fun c => c = '#')
      match pyIntHex (cs.take 2), pyIntHex ((cs.drop 2).take 2),
          pyIntHex ((cs.drop 4).take 2) with
      | some r, some g, some b => some (.tup [(r : ℤ), (g : ℤ), (b : ℤ)])
      | _, _, _ => none

/-!  Circular-family pie wedge (render_circle_frame lines 790-808): the
wedge layer is created and alpha-composited only when the remaining ratio
is positive; it spans from `start = -90°` to `end = -90° + ratio * 360°`
(PIL `pieslice` sweeps clockwise from the 3 o'clock axis, so `-90` is the
top). -/

/-- The wedge drawn by `render_circle_frame`, if any: `(start, end)` angles
in degrees.  `none` models the skipped layer (`if remaining_ratio > 0`). -/
def wedgeAngles (total_seconds total_duration : ℤ) : Option (ℚ × ℚ) :=
  if 0 < remainingRatio total_seconds total_duration then
    some (-90, -90 + remainingRatio total_seconds total_duration * 360)
  else none

/-!  Style catalogs (source lines 38-525).  Both dataclasses are embedded
field-for-field; colors use `PyColor`, optional fields use `Option`. -/

/-- `StyleConfig` dataclass (digital family, source lines 38-64). -/
structure StyleConfig where
  name : String
  description : String
  width : ℤ
  height : ℤ
  bg_color : PyColor
  text_color : PyColor
  font_size : ℕ
  font_name : Option String
  separator : String
  show_labels : Bool
  label_color : PyColor
  border : Bool
  border_color : PyColor
  border_width : ℤ
  rounded_bg : Bool
  digit_bg_color : Option PyColor
  glow : Bool
  progress_bar : Bool
  progress_color : PyColor
  gradient_bg : Bool
  gradient_colors : Option (PyColor × PyColor)
  circle_progress : Bool
  circle_color : PyColor
  monospace : Bool
deriving DecidableEq

/-- `CircleTimerConfig` dataclass (circular family, source lines 267-291). -/
structure CircleTimerConfig where
  name : String
  description : String
  width : ℤ
  height : ℤ
  bg_color : PyColor
  text_color : PyColor
  font_size : ℕ
  wedge_color : PyColor
  wedge_alpha : ℕ
  ring_color : PyColor
  ring_width : ℤ
  tick_color : PyColor
  tick_major_len : ℤ
  tick_minor_len : ℤ
  show_ticks : Bool
  show_hour_numbers : Bool
  hour_number_color : PyColor
  center_dot : Bool
  center_dot_color : PyColor
  glow : Bool
  gradient_bg : Bool
  gradient_colors : Option (PyColor × PyColor)
deriving DecidableEq

/-- The wedge fill resolved by `render_circle_frame` (lines 786, 805):
`(*hex_to_rgb(wedge_color), wedge_alpha)`; `none` models a raised
`ValueError` inside `hex_to_rgb`. -/
def wedgeFill (st : CircleTimerConfig) : Option (PyColor × ℕ) :=
  (hex_to_rgb st.wedge_color).map (fun rgb => (rgb, st.wedge_alpha))

/-- Claim C5: with a positive total duration the circular remaining ratio
is `remaining/total`; a wedge layer is composited iff that ratio is
positive, starting at the top (`-90°`) and sweeping through
`ratio * 360°`, filled with the configured wedge color and alpha; at
ratio `1` the sweep is a full `360°` and at ratio `0` no layer exists. -/
theorem circle_wedge_spec (s T : ℤ) (hT : 0 < T) :
    remainingRatio s T = (s : ℚ) / (T : ℚ) ∧
    ((wedgeAngles s T).isSome ↔ 0 < remainingRatio s T) ∧
    (∀ a b : ℚ, wedgeAngles s T = some (a, b) →
      a = -90 ∧ b - a = remainingRatio s T * 360) ∧
    (remainingRatio s T = 1 → wedgeAngles s T = some (-90, 270)) ∧
    (remainingRatio s T = 0 → wedgeAngles s T = none) ∧
    (∀ st : CircleTimerConfig, ∀ rgb : PyColor,
      hex_to_rgb st.wedge_color = some rgb →
        wedgeFill st = some (rgb, st.wedge_alpha)) := by
  refine ⟨if_pos hT, ?_, ?_, ?_, ?_, ?_⟩
  · unfold wedgeAngles
    by_cases h : 0 < remainingRatio s T <;> simp [h]
  · intro a b hab
    unfold wedgeAngles at hab
    by_cases h : 0 < remainingRatio s T
    · rw [if_pos h] at hab
      obtain ⟨ha, hb⟩ := Prod.mk.injEq .. ▸ Option.some.injEq .. ▸ hab
      constructor
      · exact ha.symm
      · rw [← ha, ← hb]; ring
    · rw [if_neg h] at hab; exact absurd hab (by simp)
  · intro h1
    unfold wedgeAngles
    rw [h1]
    norm_num
  · intro h0
    unfold wedgeAngles
    rw [h0]
    norm_num
  · intro st rgb h
    unfold wedgeFill
    rw [h]
    rfl

theorem circle_wedge_spec_witness :
    wedgeAngles 4 4 = some (-90, 270) :=
  (circle_wedge_spec 4 4 (by decide)).2.2.2.1 (by
    show remainingRatio 4 4 = 1
    norm_num [remainingRatio])

/-- `STYLES` dict (source lines 67-260), as an insertion-ordered
association list. -/
def STYLES : List (String × StyleConfig) :=
  [("modern",
    { name := "modern"
      description := "Clean modern look with dark background and cyan text"
      width := 1920, height := 1080
      bg_color := .str "#0a0a0a", text_color := .str "#00e5ff"
      font_size := 280, font_name := none, separator := ":"
      show_labels := true, label_color := .str "#555555"
      border := false, border_color := .str "#000", border_width := 0
      rounded_bg := true, digit_bg_color := some (.str "#1a1a2e")
      glow := false
      progress_bar := true, progress_color := .str "#00e5ff"
      gradient_bg := false, gradient_colors := none
      circle_progress := false, circle_color := .str "#000"
      monospace := true }),
   ("classic",
    { name := "classic"
      description := "Traditional white on black with serif-style digits"
      width := 1920, height := 1080
      bg_color := .str "#000000", text_color := .str "#ffffff"
      font_size := 300, font_name := none, separator := ":"
      show_labels := false, label_color := .str "#888"
      border := true, border_color := .str "#ffffff", border_width := 4
      rounded_bg := false, digit_bg_color := none
      glow := false
      progress_bar := false, progress_color := .str "#000"
      gradient_bg := false, gradient_colors := none
      circle_progress := false, circle_color := .str "#000"
      monospace := true }),
   ("neon",
    { name := "neon"
      description := "Neon glow effect on dark purple background"
      width := 1920, height := 1080
      bg_color := .str "#0d0221", text_color := .str "#ff2afc"
      font_size := 220, font_name := none, separator := " : "
      show_labels := false, label_color := .str "#555"
      border := false, border_color := .str "#000", border_width := 0
      rounded_bg := false, digit_bg_color := none
      glow := true
      progress_bar := false, progress_color := .str "#000"
      gradient_bg := false, gradient_colors := none
      circle_progress := false, circle_color := .str "#000"
      monospace := true }),
   ("minimal",
    { name := "minimal"
      description := "Minimal white background with thin gray text"
      width := 1920, height := 1080
      bg_color := .str "#ffffff", text_color := .str "#333333"
      font_size := 260, font_name := none, separator := ":"
      show_labels := true, label_color := .str "#aaaaaa"
      border := false, border_color := .str "#000", border_width := 0
      rounded_bg := false, digit_bg_color := none
      glow := false
      progress_bar := false, progress_color := .str "#000"
      gradient_bg := false, gradient_colors := none
      circle_progress := false, circle_color := .str "#000"
      monospace := true }),
   ("retro",
    { name := "retro"
      description := "Retro LED display with amber digits on dark background"
      width := 1920, height := 1080
      bg_color := .str "#1a1000", text_color := .str "#ff8c00"
      font_size := 300, font_name := none, separator := ":"
      show_labels := false, label_color := .str "#555"
      border := true, border_color := .str "#332200", border_width := 8
      rounded_bg := true, digit_bg_color := some (.str "#0f0a00")
      glow := true
      progress_bar := false, progress_color := .str "#000"
      gradient_bg := false, gradient_colors := none
      circle_progress := false, circle_color := .str "#000"
      monospace := true }),
   ("gradient",
    { name := "gradient"
      description := "Vibrant gradient background with white text"
      width := 1920, height := 1080
      bg_color := .str "#000000", text_color := .str "#ffffff"
      font_size := 280, font_name := none, separator := ":"
      show_labels := true, label_color := .str "#dddddd"
      border := false, border_color := .str "#000", border_width := 0
      rounded_bg := false, digit_bg_color := none
      glow := false
      progress_bar := true, progress_color := .str "#ffffff"
      gradient_bg := true
      gradient_colors := some (.str "#667eea", .str "#764ba2")
      circle_progress := false, circle_color := .str "#000"
      monospace := true }),
   ("terminal",
    { name := "terminal"
      description := "Hacker-style green on black terminal look"
      width := 1920, height := 1080
      bg_color := .str "#0c0c0c", text_color := .str "#00ff41"
      font_size := 260, font_name := none, separator := ":"
      show_labels := true, label_color := .str "#006b1a"
      border := true, border_color := .str "#00ff41", border_width := 2
      rounded_bg := false, digit_bg_color := none
      glow := true
      progress_bar := false, progress_color := .str "#000"
      gradient_bg := false, gradient_colors := none
      circle_progress := false, circle_color := .str "#000"
      monospace := true }),
   ("cinematic",
    { name := "cinematic"
      description := "Cinematic widescreen with gold text on dark gradient"
      width := 1920, height := 1080
      bg_color := .str "#000000", text_color := .str "#d4af37"
      font_size := 220, font_name := none, separator := " : "
      show_labels := false, label_color := .str "#555"
      border := false, border_color := .str "#000", border_width := 0
      rounded_bg := false, digit_bg_color := none
      glow := true
      progress_bar := false, progress_color := .str "#000"
      gradient_bg := true
      gradient_colors := some (.str "#1a1a1a", .str "#000000")
      circle_progress := false, circle_color := .str "#000"
      monospace := true }),
   ("sport",
    { name := "sport"
      description := "Sporty bold red countdown with progress bar"
      width := 1920, height := 1080
      bg_color := .str "#111111", text_color := .str "#ff1744"
      font_size := 300, font_name := none, separator := ":"
      show_labels := true, label_color := .str "#666666"
      border := false, border_color := .str "#000", border_width := 0
      rounded_bg := true, digit_bg_color := some (.str "#1c1c1c")
      glow := false
      progress_bar := true, progress_color := .str "#ff1744"
      gradient_bg := false, gradient_colors := none
      circle_progress := false, circle_color := .str "#000"
      monospace := true }),
   ("elegant",
    { name := "elegant"
      description :=
        "Elegant cream background with dark brown text and circle progress"
      width := 1920, height := 1080
      bg_color := .str "#f5f0e8", text_color := .str "#3e2723"
      font_size := 180, font_name := none, separator := "  :  "
      show_labels := true, label_color := .str "#8d6e63"
      border := false, border_color := .str "#000", border_width := 0
      rounded_bg := false, digit_bg_color := none
      glow := false
      progress_bar := false, progress_color := .str "#000"
      gradient_bg := false, gradient_colors := none
      circle_progress := true, circle_color := .str "#8d6e63"
      monospace := true })]

/-- `CIRCLE_STYLES` dict (source lines 294-525), as an insertion-ordered
association list. -/
def CIRCLE_STYLES : List (String × CircleTimerConfig) :=
  [("circle-modern",
    { name := "circle-modern"
      description := "Modern dark circle timer with cyan wedge"
      width := 1080, height := 1080
      bg_color := .str "#0a0a0a", text_color := .str "#00e5ff"
      font_size := 90
      wedge_color := .str "#00e5ff", wedge_alpha := 180
      ring_color := .str "#00e5ff", ring_width := 6
      tick_color := .str "#00e5ff", tick_major_len := 25, tick_minor_len := 12
      show_ticks := true
      show_hour_numbers := false, hour_number_color := .str "#555"
      center_dot := true, center_dot_color := .str "#00e5ff"
      glow := false
      gradient_bg := false, gradient_colors := none }),
   ("circle-classic",
    { name := "circle-classic"
      description := "Classic Time Timer style with red wedge on white"
      width := 1080, height := 1080
      bg_color := .str "#ffffff", text_color := .str "#333333"
      font_size := 80
      wedge_color := .str "#e53935", wedge_alpha := 200
      ring_color := .str "#333333", ring_width := 5
      tick_color := .str "#333333", tick_major_len := 30, tick_minor_len := 15
      show_ticks := true
      show_hour_numbers := true, hour_number_color := .str "#666666"
      center_dot := true, center_dot_color := .str "#333333"
      glow := false
      gradient_bg := false, gradient_colors := none }),
   ("circle-neon",
    { name := "circle-neon"
      description := "Neon glowing circle timer on dark purple"
      width := 1080, height := 1080
      bg_color := .str "#0d0221", text_color := .str "#ff2afc"
      font_size := 90
      wedge_color := .str "#ff2afc", wedge_alpha := 150
      ring_color := .str "#ff2afc", ring_width := 4
      tick_color := .str "#ff2afc", tick_major_len := 20, tick_minor_len := 10
      show_ticks := true
      show_hour_numbers := false, hour_number_color := .str "#555"
      center_dot := false, center_dot_color := .str "#000"
      glow := true
      gradient_bg := false, gradient_colors := none }),
   ("circle-minimal",
    { name := "circle-minimal"
      description := "Minimal circle timer with thin ring on white"
      width := 1080, height := 1080
      bg_color := .str "#ffffff", text_color := .str "#333333"
      font_size := 80
      wedge_color := .str "#90caf9", wedge_alpha := 140
      ring_color := .str "#cccccc", ring_width := 2
      tick_color := .str "#cccccc", tick_major_len := 15, tick_minor_len := 0
      show_ticks := true
      show_hour_numbers := false, hour_number_color := .str "#aaa"
      center_dot := false, center_dot_color := .str "#000"
      glow := false
      gradient_bg := false, gradient_colors := none }),
   ("circle-retro",
    { name := "circle-retro"
      description := "Retro amber circle timer with LED look"
      width := 1080, height := 1080
      bg_color := .str "#1a1000", text_color := .str "#ff8c00"
      font_size := 90
      wedge_color := .str "#ff8c00", wedge_alpha := 160
      ring_color := .str "#ff8c00", ring_width := 5
      tick_color := .str "#ff8c00", tick_major_len := 25, tick_minor_len := 12
      show_ticks := true
      show_hour_numbers := false, hour_number_color := .str "#555"
      center_dot := true, center_dot_color := .str "#ff8c00"
      glow := true
      gradient_bg := false, gradient_colors := none }),
   ("circle-gradient",
    { name := "circle-gradient"
      description := "Circle timer on vibrant purple gradient"
      width := 1080, height := 1080
      bg_color := .str "#000000", text_color := .str "#ffffff"
      font_size := 80
      wedge_color := .str "#ffffff", wedge_alpha := 120
      ring_color := .str "#ffffff", ring_width := 4
      tick_color := .str "#ffffffcc", tick_major_len := 20, tick_minor_len := 10
      show_ticks := true
      show_hour_numbers := false, hour_number_color := .str "#ddd"
      center_dot := true, center_dot_color := .str "#ffffff"
      glow := false
      gradient_bg := true
      gradient_colors := some (.str "#667eea", .str "#764ba2") }),
   ("circle-terminal",
    { name := "circle-terminal"
      description := "Terminal green circle timer on black"
      width := 1080, height := 1080
      bg_color := .str "#0c0c0c", text_color := .str "#00ff41"
      font_size := 80
      wedge_color := .str "#00ff41", wedge_alpha := 130
      ring_color := .str "#00ff41", ring_width := 3
      tick_color := .str "#00ff41", tick_major_len := 20, tick_minor_len := 10
      show_ticks := true
      show_hour_numbers := false, hour_number_color := .str "#006b1a"
      center_dot := false, center_dot_color := .str "#000"
      glow := true
      gradient_bg := false, gradient_colors := none }),
   ("circle-cinematic",
    { name := "circle-cinematic"
      description := "Cinematic gold circle timer on dark gradient"
      width := 1080, height := 1080
      bg_color := .str "#000000", text_color := .str "#d4af37"
      font_size := 90
      wedge_color := .str "#d4af37", wedge_alpha := 160
      ring_color := .str "#d4af37", ring_width := 5
      tick_color := .str "#d4af37", tick_major_len := 25, tick_minor_len := 12
      show_ticks := true
      show_hour_numbers := true, hour_number_color := .str "#8a7a2a"
      center_dot := true, center_dot_color := .str "#d4af37"
      glow := true
      gradient_bg := true
      gradient_colors := some (.str "#1a1a1a", .str "#000000") }),
   ("circle-sport",
    { name := "circle-sport"
      description := "Sporty red circle timer with bold digits"
      width := 1080, height := 1080
      bg_color := .str "#111111", text_color := .str "#ff1744"
      font_size := 100
      wedge_color := .str "#ff1744", wedge_alpha := 180
      ring_color := .str "#ff1744", ring_width := 6
      tick_color := .str "#ff1744", tick_major_len := 30, tick_minor_len := 15
      show_ticks := true
      show_hour_numbers := false, hour_number_color := .str "#666"
      center_dot := true, center_dot_color := .str "#ff1744"
      glow := false
      gradient_bg := false, gradient_colors := none }),
   ("circle-elegant",
    { name := "circle-elegant"
      description := "Elegant cream circle timer with brown wedge"
      width := 1080, height := 1080
      bg_color := .str "#f5f0e8", text_color := .str "#3e2723"
      font_size := 80
      wedge_color := .str "#8d6e63", wedge_alpha := 150
      ring_color := .str "#3e2723", ring_width := 3
      tick_color := .str "#8d6e63", tick_major_len := 25, tick_minor_len := 12
      show_ticks := true
      show_hour_numbers := true, hour_number_color := .str "#8d6e63"
      center_dot := true, center_dot_color := .str "#3e2723"
      glow := false
      gradient_bg := false, gradient_colors := none })]

/-- A catalog entry of either family, as stored in `ALL_STYLES`. -/
inductive AnyStyle where
  | digital (c : StyleConfig)
  | circle (c : CircleTimerConfig)
deriving DecidableEq

/-- Python `{**a, **b}` on insertion-ordered association lists with unique
keys: keys of `a` (values overridden by `b` on collision) followed by the
keys of `b` not already in `a`, in `b`'s order. -/
def dictMerge (a b : List (String × AnyStyle)) : List (String × AnyStyle) :=
  (a.map fun p =>
    match b.lookup p.1 with
    | some v => (p.1, v)
    | none => p) ++
  b.filter (fun p => (a.lookup p.1).isNone)

/-- `ALL_STYLES = {**STYLES, **CIRCLE_STYLES}` (source line 873). -/
def ALL_STYLES : List (String × AnyStyle) :=
  dictMerge (STYLES.map fun p => (p.1, AnyStyle.digital p.2))
    (CIRCLE_STYLES.map fun p => (p.1, AnyStyle.circle p.2))

/-- The `--list-styles` handler (source lines 1037-1043) iterates
`ALL_STYLES.items()` and prints one line per entry; the enumerated names
are exactly the merged catalog's keys in order. -/
def listStylesNames : List String := ALL_STYLES.map Prod.fst

/-- Claim C9: the digital and circular catalogs have disjoint key sets,
and the merged catalog enumerated by `--list-styles` is exactly the union
of both catalogs' entries in order — no duplicate keys, no omissions. -/
theorem style_catalogs_union :
    ((STYLES.map Prod.fst).all
      (fun n => ¬ n ∈ CIRCLE_STYLES.map Prod.fst) = true) ∧
    ALL_STYLES =
      (STYLES.map fun p => (p.1, AnyStyle.digital p.2)) ++
      (CIRCLE_STYLES.map fun p => (p.1, AnyStyle.circle p.2)) ∧
    listStylesNames = STYLES.map Prod.fst ++ CIRCLE_STYLES.map Prod.fst ∧
    listStylesNames.Nodup := by
  refine ⟨by decide, by decide, by decide, by decide⟩

/-!  Unknown-style handling.  `generate_frames` (lines 892-895) prints the
invalid name and the full catalog listing, then calls `sys.exit(1)`;
`preview_style` (lines 947-949) prints only the invalid name and
`return`s, so the process goes on to terminate normally. -/

/-- Observable behavior of a style-name validation: the messages printed
and, if the function terminates the process, the exit status. -/
structure ValidationBehavior where
  messages : List String
  exitCode : Option ℕ
deriving DecidableEq

/-- Validation prefix of `generate_frames` (source lines 892-895):
`some` behavior when the name is rejected, `none` when generation
proceeds. -/
def generate_frames_validation (style_name : String) : Option ValidationBehavior :=
  if style_name ∈ ALL_STYLES.map Prod.fst then none
  else some
    { messages :=
        ["Unknown style: " ++ style_name,
         "Available: " ++ String.intercalate ", " (ALL_STYLES.map Prod.fst)]
      exitCode := some 1 }

/-- Validation prefix of `preview_style` (source lines 947-949): on an
unknown name it prints a single message and returns normally (no listing
of valid names, no process exit). -/
def preview_style_validation (style_name : String) : Option ValidationBehavior :=
  if style_name ∈ ALL_STYLES.map Prod.fst then none
  else some { messages := ["Unknown style: " ++ style_name], exitCode := none }

/-- Claim C7 as amended: on a style name missing from the merged catalog,
`generate_frames` reports the invalid name together with the full list of
valid names and exits with status 1, but `preview_style` reports only the
invalid name and returns normally (exit status 0, no list of valid
names). -/
theorem unknown_style_behavior (style_name : String)
    (h : ¬ style_name ∈ ALL_STYLES.map Prod.fst) :
    generate_frames_validation style_name = some
      { messages :=
          ["Unknown style: " ++ style_name,
           "Available: " ++ String.intercalate ", " (ALL_STYLES.map Prod.fst)]
        exitCode := some 1 } ∧
    preview_style_validation style_name = some
      { messages := ["Unknown style: " ++ style_name], exitCode := none } := by
  constructor
  · unfold generate_frames_validation
    rw [if_neg h]
  · unfold preview_style_validation
    rw [if_neg h]

theorem unknown_style_behavior_witness :
    preview_style_validation "nope" = some
      { messages := ["Unknown style: nope"], exitCode := none } :=
  (unknown_style_behavior "nope" (by decide)).2

/-- Counterexample to claim C7 as stated: on the unknown name `"nope"`,
`preview_style` does not terminate with a non-zero status (its behavior
records no exit code) and its only message is the invalid name — the full
list of valid style names is never reported. -/
theorem preview_unknown_style_cex :
    (preview_style_validation "nope").map (fun b => b.exitCode) = some none ∧
    (preview_style_validation "nope").map (fun b => b.messages) =
      some ["Unknown style: nope"] := by
  refine ⟨by decide, by decide⟩

/-- The colors `render_frame` (source lines 658-760) passes to
`hex_to_rgb` on a given style, in execution order: background (line 666),
gradient stops (671), border (676), digit panel (699), circle-progress
ring (636 via 704), glow text (617 via 708), main text (711), labels
(733), progress bar (744).  A color guarded by a disabled feature flag is
never resolved. -/
def resolvedColorsDigital (st : StyleConfig) : List PyColor :=
  [st.bg_color] ++
  (if st.gradient_bg then
    match st.gradient_colors with
    | some (a, b) => [a, b]
    | none => []
  else []) ++
  (if st.border then [st.border_color] else []) ++
  (if st.rounded_bg then
    match st.digit_bg_color with
    | some c => [c]
    | none => []
  else []) ++
  (if st.circle_progress then [st.circle_color] else []) ++
  (if st.glow then [st.text_color] else []) ++
  [st.text_color] ++
  (if st.show_labels then [st.label_color] else []) ++
  (if st.progress_bar then [st.progress_color] else [])

/-- The colors `render_circle_frame` (source lines 767-866) passes to
`hex_to_rgb`, in execution order: background (775), gradient stops (780),
wedge/ring/tick (786-788, unconditional), hour numbers (839), center dot
(852), glow text (617 via 862), main text (864). -/
def resolvedColorsCircle (st : CircleTimerConfig) : List PyColor :=
  [st.bg_color] ++
  (if st.gradient_bg then
    match st.gradient_colors with
    | some (a, b) => [a, b]
    | none => []
  else []) ++
  [st.wedge_color, st.ring_color, st.tick_color] ++
  (if st.show_hour_numbers then [st.hour_number_color] else []) ++
  (if st.center_dot then [st.center_dot_color] else []) ++
  (if st.glow then [st.text_color] else []) ++
  [st.text_color]

/-- A color value `hex_to_rgb` is sure to accept: a tuple, or a string
whose `#`-stripped form starts with at least six hex digits. -/
def sixHexOk (c : PyColor) : Bool :=
  match c with
  | .tup _ => true
  | .str s =>
      let t := s.data.dropWhile (fun ch => ch = '#')
      decide (6 ≤ t.length) && (t.take 6).all (fun ch => (hexVal ch).isSome)

/-- Claim C10: `hex_to_rgb` passes tuples through unchanged; on the
8-digit string `"#ffffffcc"` — the tick color of `circle-gradient` — it
silently drops the alpha suffix and yields `(255, 255, 255)`; on the
3-digit shorthand `"#000"` it raises (the `[4:6]` slice is empty); and
every color either catalog actually resolves during rendering is a tuple
or a string with at least six leading hex digits, so `hex_to_rgb` accepts
it. -/
theorem hex_to_rgb_resolution :
    (∀ xs : List ℤ, hex_to_rgb (.tup xs) = some (.tup xs)) ∧
    hex_to_rgb (.str "#ffffffcc") = some (.tup [255, 255, 255]) ∧
    (CIRCLE_STYLES.lookup "circle-gradient").map
      (fun st => st.tick_color) = some (.str "#ffffffcc") ∧
    hex_to_rgb (.str "#000") = none ∧
    (STYLES.all fun p =>
      (resolvedColorsDigital p.2).all fun c =>
        sixHexOk c && (hex_to_rgb c).isSome) = true ∧
    (CIRCLE_STYLES.all fun p =>
      (resolvedColorsCircle p.2).all fun c =>
        sixHexOk c && (hex_to_rgb c).isSome) = true := by
  refine ⟨fun xs => rfl, by decide, by decide, by decide, by decide, by decide⟩

/-!  Sequencer (`generate_frames`, source lines 876-942).  The loop
`for second in range(start_seconds, start_seconds - duration - 1, -1)`
with the `if second < 0: break` guard, the inner `for sub_frame in
range(fps)` loop rendering only at `sub_frame == 0`, and the
`frame_{frame_num:08d}.png` numbering. -/

/-- `range(start, stop, -1)` unrolled with fuel `(start - stop).toNat`:
the descending integers `start, start - 1, …, stop + 1`. -/
def pyRangeDownAux : ℕ → ℤ → List ℤ
  | 0, _ => []
  | n + 1, start => start :: pyRangeDownAux n (start - 1)

/-- The seconds the outer loop runs the body for: `range(start_seconds,
start_seconds - duration - 1, -1)` truncated at the first negative value
by the `break` (source lines 911-913). -/
def countdownSeconds (start_seconds duration : ℤ) : List ℤ :=
  (pyRangeDownAux (start_seconds - (start_seconds - duration - 1)).toNat
    start_seconds).takeWhile (fun s => decide (0 ≤ s))

/-- Output file name of frame `n`: `f"frame_{n:08d}.png"` (source
line 924; the enclosing directory path is filesystem plumbing, out of
scope). -/
def frameName (n : ℕ) : String :=
  "frame_" ++ zfill 8 (natStr n) ++ ".png"

/-- The inner/outer loop body: for each countdown second, `fps` files are
written (named by the running `frame_num` counter), each containing the
image rendered for that second — the compositor runs only at
`sub_frame == 0` and the same `img` object is saved for every sub-frame
(source lines 915-926).  Each emitted file is recorded as
`(file name, second whose rendered image it contains)`. -/
def genLoop (fps : ℕ) : List ℤ → ℕ → List (String × ℤ)
  | [], _ => []
  | s :: rest, num =>
      ((List.range fps).map fun k => (frameName (num + k), s)) ++
        genLoop fps rest (num + fps)

/-- All files emitted by one run of `generate_frames` (after the style
name validated), in order. -/
def generate_frames_files (start_seconds duration : ℤ) (fps : ℕ) :
    List (String × ℤ) :=
  genLoop fps (countdownSeconds start_seconds duration) 0

/-- The seconds at which the frame compositor is invoked: one invocation
per `sub_frame == 0` iteration of the inner loop (source lines 915-922). -/
def renderEvents (fps : ℕ) (seconds : List ℤ) : List ℤ :=
  seconds.flatMap fun s => ((List.range fps).filter fun k => k == 0).map fun _ => s

theorem pyRangeDownAux_eq (n : ℕ) :
    ∀ start : ℤ, pyRangeDownAux n start =
      (List.range n).map (fun i => start - (i : ℕ)) := by
  induction n with
  | zero => intro start; rfl
  | succ m ih =>
      intro start
      rw [List.range_succ_eq_map]
      show start :: pyRangeDownAux m (start - 1) = _
      rw [ih (start - 1), List.map_cons, List.map_map]
      refine congrArg₂ _ (by norm_num) (List.map_congr_left ?_)
      intro a _
      show start - 1 - (a : ℕ) = start - ((Nat.succ a : ℕ) : ℤ)
      push_cast
      ring

theorem pyRangeDownAux_takeWhile (n : ℕ) :
    ∀ start : ℤ, (pyRangeDownAux n start).takeWhile (fun s => decide (0 ≤ s)) =
      pyRangeDownAux (min n (start + 1).toNat) start := by
  induction n with
  | zero => intro start; rw [Nat.zero_min]; rfl
  | succ m ih =>
      intro start
      by_cases h : 0 ≤ start
      · have h1 : (start + 1).toNat = start.toNat + 1 := by omega
        have h2 : min (m + 1) (start + 1).toNat = min m start.toNat + 1 := by omega
        rw [h2]
        show List.takeWhile _ (start :: pyRangeDownAux m (start - 1)) =
          start :: pyRangeDownAux (min m start.toNat) (start - 1)
        rw [List.takeWhile_cons_of_pos (by simpa using h), ih (start - 1)]
        have h3 : (start - 1 + 1).toNat = start.toNat := by omega
        rw [h3]
      · have h1 : min (m + 1) (start + 1).toNat = 0 := by omega
        rw [h1]
        show List.takeWhile _ (start :: pyRangeDownAux m (start - 1)) = []
        rw [List.takeWhile_cons_of_neg (by simpa using h)]

theorem countdownSeconds_eq (start_seconds duration : ℤ) :
    countdownSeconds start_seconds duration =
      pyRangeDownAux (min (duration + 1).toNat (start_seconds + 1).toNat)
        start_seconds := by
  unfold countdownSeconds
  have h : start_seconds - (start_seconds - duration - 1) = duration + 1 := by ring
  rw [h, pyRangeDownAux_takeWhile]

theorem pyRangeDownAux_length (n : ℕ) (start : ℤ) :
    (pyRangeDownAux n start).length = n := by
  rw [pyRangeDownAux_eq, List.length_map, List.length_range]

theorem countdownSeconds_length (start_seconds duration : ℤ)
    (hs : 0 ≤ start_seconds) (hd : 0 ≤ duration) :
    (countdownSeconds start_seconds duration).length =
      (min duration start_seconds).toNat + 1 := by
  rw [countdownSeconds_eq, pyRangeDownAux_length]
  omega

theorem countdownSeconds_nodup (start_seconds duration : ℤ) :
    (countdownSeconds start_seconds duration).Nodup := by
  rw [countdownSeconds_eq, pyRangeDownAux_eq]
  refine List.Nodup.map ?_ (List.nodup_range _)
  intro a b hab
  dsimp only at hab
  omega

theorem filter_eq_zero_range (fps : ℕ) (hf : 1 ≤ fps) :
    ((List.range fps).filter fun k => k == 0) = [0] := by
  obtain ⟨m, rfl⟩ : ∃ m, fps = m + 1 := ⟨fps - 1, by omega⟩
  rw [List.range_succ_eq_map, List.filter_cons, List.filter_map]
  have h : List.filter ((fun k => k == 0) ∘ Nat.succ) (List.range m) = [] := by
    apply List.filter_eq_nil_iff.mpr
    intro a _
    simp [Function.comp]
  rw [h]
  rfl

/-- With `fps ≥ 1`, the compositor runs exactly once per countdown second,
in order. -/
theorem renderEvents_eq (fps : ℕ) (hf : 1 ≤ fps) (seconds : List ℤ) :
    renderEvents fps seconds = seconds := by
  unfold renderEvents
  rw [filter_eq_zero_range fps hf]
  simp

/-- Closed form of the emission loop: file `n` (for `n` below
`seconds.length * fps`) is named by counter value `num + n` and holds the
image of second `seconds[n / fps]`. -/
theorem genLoop_eq (fps : ℕ) (hf : 1 ≤ fps) :
    ∀ (L : List ℤ) (num : ℕ),
      genLoop fps L num = (List.range (L.length * fps)).map
        (fun n => (frameName (num + n), L.getD (n / fps) 0)) := by
  intro L
  induction L with
  | nil => intro num; simp [genLoop]
  | cons s rest ih =>
      intro num
      show ((List.range fps).map fun k => (frameName (num + k), s)) ++
          genLoop fps rest (num + fps) = _
      have hlen : (s :: rest).length * fps = fps + rest.length * fps := by
        simp [List.length_cons]
        ring
      rw [hlen, List.range_add, List.map_append, List.map_map]
      congr 1
      · refine List.map_congr_left ?_
        intro k hk
        rw [List.mem_range] at hk
        have h0 : k / fps = 0 := Nat.div_eq_of_lt hk
        rw [h0]
        rfl
      · rw [ih (num + fps)]
        refine List.map_congr_left ?_
        intro n _
        show (frameName (num + fps + n), rest.getD (n / fps) 0)
          = (frameName (num + (fps + n)), (s :: rest).getD ((fps + n) / fps) 0)
        have hdiv : (fps + n) / fps = n / fps + 1 := by
          rw [Nat.add_comm fps n, Nat.add_div_right _ (by omega)]
        rw [hdiv, List.getD_cons_succ, Nat.add_assoc]

/-- Claim C1 as amended: the loop bounds are inclusive at both ends, so a
run with `fps ≥ 1`, `duration ≥ 1` and `start_seconds ≥ 0` emits
`(min duration start_seconds + 1) * fps` files — `(duration + 1) * fps`
when `start_seconds ≥ duration`, `(start_seconds + 1) * fps` under early
termination — and the `style="modern", fps=1, duration=3, start=10`
scenario yields exactly 4 files, the first showing `00:00:10` and the
last `00:00:07`. -/
theorem generate_frames_file_count (start_seconds duration : ℤ) (fps : ℕ)
    (hs : 0 ≤ start_seconds) (hd : 1 ≤ duration) (hf : 1 ≤ fps) :
    (generate_frames_files start_seconds duration fps).length =
      ((min duration start_seconds).toNat + 1) * fps ∧
    (duration ≤ start_seconds →
      (generate_frames_files start_seconds duration fps).length =
        (duration.toNat + 1) * fps) ∧
    (start_seconds < duration →
      (generate_frames_files start_seconds duration fps).length =
        (start_seconds.toNat + 1) * fps) ∧
    "modern" ∈ ALL_STYLES.map Prod.fst ∧
    generate_frames_files 10 3 1 =
      [("frame_00000000.png", 10), ("frame_00000001.png", 9),
       ("frame_00000002.png", 8), ("frame_00000003.png", 7)] ∧
    format_time 10 = ("00", "00", "10") ∧
    format_time 7 = ("00", "00", "07") := by
  have hlen : (generate_frames_files start_seconds duration fps).length =
      ((min duration start_seconds).toNat + 1) * fps := by
    unfold generate_frames_files
    rw [genLoop_eq fps hf, List.length_map, List.length_range,
      countdownSeconds_length start_seconds duration hs (by omega)]
  refine ⟨hlen, ?_, ?_, by decide, by decide, by decide, by decide⟩
  · intro h
    rw [hlen]
    congr 2
    omega
  · intro h
    rw [hlen]
    congr 2
    omega

theorem generate_frames_file_count_witness :
    (generate_frames_files 10 3 1).length = ((min (3 : ℤ) 10).toNat + 1) * 1 :=
  (generate_frames_file_count 10 3 1 (by decide) (by decide) (by decide)).1

/-- Counterexample to claim C1 as stated: the claimed scenario
(`fps=1, duration=3, start=10`) does not emit `duration * fps = 3` files,
and the last emitted frame does not show second 8 (`00:00:08`). -/
theorem generate_frames_file_count_cex :
    ¬ (generate_frames_files 10 3 1).length = 3 * 1 ∧
    ¬ (generate_frames_files 10 3 1).getLast?.map Prod.snd = some 8 := by
  refine ⟨by decide, by decide⟩

/-- Claim C2: with `fps ≥ 1` the compositor is invoked exactly once per
countdown second (the invocation list equals the duplicate-free list of
seconds); each emitted file `n` is named by the monotonically increasing
zero-padded counter starting at 0 and holds the image rendered for second
`n / fps`, so every block of `fps` consecutive files belonging to one
second carries the identical image. -/
theorem generate_frames_blocks (start_seconds duration : ℤ) (fps : ℕ)
    (hf : 1 ≤ fps) :
    renderEvents fps (countdownSeconds start_seconds duration) =
      countdownSeconds start_seconds duration ∧
    (countdownSeconds start_seconds duration).Nodup ∧
    generate_frames_files start_seconds duration fps =
      (List.range ((countdownSeconds start_seconds duration).length * fps)).map
        (fun n => (frameName n,
          (countdownSeconds start_seconds duration).getD (n / fps) 0)) ∧
    (∀ i j : ℕ,
      i < (generate_frames_files start_seconds duration fps).length →
      j < (generate_frames_files start_seconds duration fps).length →
      i / fps = j / fps →
      ((generate_frames_files start_seconds duration fps).getD i ("", 0)).2 =
      ((generate_frames_files start_seconds duration fps).getD j ("", 0)).2) := by
  set secs := countdownSeconds start_seconds duration with hsecs
  have h3 : generate_frames_files start_seconds duration fps =
      (List.range (secs.length * fps)).map
        (fun n => (frameName n, secs.getD (n / fps) 0)) := by
    unfold generate_frames_files
    rw [genLoop_eq fps hf]
    refine List.map_congr_left ?_
    intro n _
    rw [Nat.zero_add]
  refine ⟨renderEvents_eq fps hf secs, countdownSeconds_nodup _ _, h3, ?_⟩
  intro i j hi hj hij
  have hleneq : (generate_frames_files start_seconds duration fps).length =
      secs.length * fps := by
    rw [h3, List.length_map, List.length_range]
  have hi' : i < secs.length * fps := hleneq ▸ hi
  have hj' : j < secs.length * fps := hleneq ▸ hj
  have hget : ∀ k : ℕ, k < secs.length * fps →
      ((List.range (secs.length * fps)).map
        (fun n => (frameName n, secs.getD (n / fps) 0))).getD k ("", 0) =
      (frameName k, secs.getD (k / fps) 0) := by
    intro k hk
    have hk2 : k < ((List.range (secs.length * fps)).map
        (fun n => (frameName n, secs.getD (n / fps) 0))).length := by
      rw [List.length_map, List.length_range]; exact hk
    rw [List.getD_eq_getElem _ _ hk2]
    simp
  rw [h3, hget i hi', hget j hj']
  show secs.getD (i / fps) 0 = secs.getD (j / fps) 0
  rw [hij]

theorem generate_frames_blocks_witness :
    ((generate_frames_files 10 3 2).getD 2 ("", 0)).2 =
      ((generate_frames_files 10 3 2).getD 3 ("", 0)).2 :=
  (generate_frames_blocks 10 3 2 (by decide)).2.2.2 2 3 (by decide) (by decide)
    (by decide)

/-!  Axis labels (`render_frame`, source lines 714-736).  Text widths come
from `draw.textbbox` — glyph measurement is delegated to the font system
(spec §1), so the width oracle is a parameter `m : String → ℕ`.  All
divisions are Python `//` on non-negative measured widths. -/

/-- Horizontal centers of the three label positions and the label
baseline, exactly as computed by the source (lines 716, 728-731).  Note
the seconds center is built from `hh_w` — the measured width of the hours
sub-string — and the seconds sub-string is never measured. -/
structure LabelLayout where
  hh_cx : ℤ
  mm_cx : ℤ
  ss_cx : ℤ
  label_y : ℤ
deriving DecidableEq

def labelLayoutCode (m : String → ℕ) (cx cy : ℤ) (text_h : ℕ)
    (hh sep mm ss : String) : LabelLayout :=
  let text_w : ℤ := (m (hh ++ sep ++ mm ++ sep ++ ss) : ℤ)
  let hh_w : ℤ := (m hh : ℤ)
  let sep_w : ℤ := (m sep : ℤ)
  let mm_w : ℤ := (m mm : ℤ)
  let start_x : ℤ := cx - text_w / 2
  { hh_cx := start_x + hh_w / 2
    mm_cx := start_x + hh_w + sep_w + mm_w / 2
    ss_cx := start_x + hh_w + sep_w + mm_w + sep_w + hh_w / 2
    label_y := cy + (text_h : ℤ) / 2 + 30 }

/-- Modelled from the spec (§4.3 step 8): the same layout but with the
horizontal center of the seconds group computed from the individually
measured width of the seconds sub-string itself. -/
def labelLayoutSpec (m : String → ℕ) (cx cy : ℤ) (text_h : ℕ)
    (hh sep mm ss : String) : LabelLayout :=
  let text_w : ℤ := (m (hh ++ sep ++ mm ++ sep ++ ss) : ℤ)
  let hh_w : ℤ := (m hh : ℤ)
  let sep_w : ℤ := (m sep : ℤ)
  let mm_w : ℤ := (m mm : ℤ)
  let ss_w : ℤ := (m ss : ℤ)
  let start_x : ℤ := cx - text_w / 2
  { hh_cx := start_x + hh_w / 2
    mm_cx := start_x + hh_w + sep_w + mm_w / 2
    ss_cx := start_x + hh_w + sep_w + mm_w + sep_w + ss_w / 2
    label_y := cy + (text_h : ℤ) / 2 + 30 }

/-- Label font size: `get_label_font` loads a font at
`style.font_size // 6` (source lines 590-592). -/
def label_font_size (font_size : ℕ) : ℕ := font_size / 6

/-- Claim C8 as amended: the hours and minutes centers (and the label
baseline) are exactly those described by the spec, computed from the
individually measured hours, separator and minutes widths; the seconds
center reuses the measured hours width in place of the seconds width, so
the code agrees with the spec's description precisely when the two
measure equally; the labels use a font sized `font_size / 6`. -/
theorem label_layout_refinement (m : String → ℕ) (cx cy : ℤ) (text_h : ℕ)
    (hh sep mm ss : String) :
    (labelLayoutCode m cx cy text_h hh sep mm ss).hh_cx =
      (labelLayoutSpec m cx cy text_h hh sep mm ss).hh_cx ∧
    (labelLayoutCode m cx cy text_h hh sep mm ss).mm_cx =
      (labelLayoutSpec m cx cy text_h hh sep mm ss).mm_cx ∧
    (labelLayoutCode m cx cy text_h hh sep mm ss).label_y =
      (labelLayoutSpec m cx cy text_h hh sep mm ss).label_y ∧
    (m ss = m hh →
      labelLayoutCode m cx cy text_h hh sep mm ss =
        labelLayoutSpec m cx cy text_h hh sep mm ss) ∧
    (∀ fs : ℕ, label_font_size fs = fs / 6) := by
  refine ⟨rfl, rfl, rfl, ?_, fun fs => rfl⟩
  intro h
  unfold labelLayoutCode labelLayoutSpec
  rw [h]

theorem label_layout_refinement_witness :
    labelLayoutCode (fun s => 10 * s.length) 960 540 200 "12" ":" "34" "56" =
      labelLayoutSpec (fun s => 10 * s.length) 960 540 200 "12" ":" "34" "56" :=
  (label_layout_refinement (fun s => 10 * s.length) 960 540 200 "12" ":" "34"
    "56").2.2.2.1 (by decide)

/-- A width oracle under which the seconds sub-string measures wider than
the hours sub-string (e.g. a non-monospace fallback font). -/
def mWidth56 : String → ℕ := fun s => if s = "56" then 40 else 20

/-- Counterexample to claim C8 as stated: the seconds-group center is not
computed from the measured width of the seconds sub-string — whenever the
seconds sub-string measures differently from the hours sub-string, the
code's layout departs from the spec's description. -/
theorem label_layout_refinement_cex :
    labelLayoutCode mWidth56 960 540 200 "12" ":" "34" "56" ≠
      labelLayoutSpec mWidth56 960 540 200 "12" ":" "34" "56" := by
  decide
